import Mathlib

/-
Verification of the cvnn layer module (src/cvnn/layers.py, version 0.0.28).

The development shallow-embeds the shape/dtype-inference chain and the
tensor-kernel computations of the module:

  - element dtypes and the process-wide Registry (the class attributes
    last_layer_output_dtype / last_layer_output_size of ComplexLayer);
  - the base-layer input resolution protocol of ComplexLayer.__init__;
  - the shape arithmetic of Convolutional._calculate_shapes;
  - the constructors of FFT2DTransform and FrequencyConvolutional2D;
  - the Dense construction-time activation probe;
  - the masked-blend indexed write of Convolutional._assign_value;
  - Dropout.call.

Python error exits (logger.error followed by sys.exit) are modelled as
Except values: ConfigurationError for invalid construction parameters,
and dedicated constructors for AttributeError / AssertionError /
IndexError exits that the interpreter itself would raise.  Warnings
(logger.warning) are returned as lists of message strings.  Methods are
embedded as functions whose parameters include the fields of self that
they read.
-/

namespace Cvnn

/-- Element dtypes that can flow through the module.  SUPPORTED_DTYPES in
the source is the pair (np.complex64, np.float32); the 128/64-bit variants
exist so that an unsupported explicit dtype can be expressed. -/
inductive Dtype where
  | complex64
  | float32
  | complex128
  | float64
  deriving DecidableEq, Repr

/-- Embeds SUPPORTED_DTYPES (layers.py line 20). -/
def SUPPORTED_DTYPES : List Dtype := [.complex64, .float32]

/-- Shapes are ordered sequences of (integer) dimensions; layer sizes in the
source are python ints inside tuples. -/
abbrev Shape := List Int

/-- Failure modes of layer construction.  configurationError stands for the
logger.error + sys.exit(-1) pattern used for invalid construction
parameters; attributeError / assertionError / indexError stand for the
python exceptions the interpreter raises on the corresponding lines. -/
inductive LayerError where
  | configurationError (msg : String)
  | attributeError
  | assertionError
  | indexError
  deriving DecidableEq, Repr

/-- The process-wide chain state: class attributes last_layer_output_dtype
and last_layer_output_size of ComplexLayer (layers.py lines 44-45), both
None until the first layer is constructed.  The size slot is polymorphic
because Dense stores ints while the spatial layers store shape tuples. -/
structure Registry (σ : Type) where
  last_layer_output_dtype : Option Dtype
  last_layer_output_size : Option σ
  deriving DecidableEq, Repr

/-- Embeds the input-dtype resolution of ComplexLayer.__init__ (layers.py
lines 62-76): a missing dtype on an unset Registry is a fatal
configuration error; a missing dtype otherwise inherits the Registry
value; an explicit dtype must be supported and merely warns when it
differs from the Registry value. -/
def resolveInputDtype (regDtype : Option Dtype) (input_dtype : Option Dtype) :
    Except LayerError (Dtype × List String) :=
  match input_dtype with
  | none =>
    match regDtype with
    | none => .error (.configurationError "First layer must be given an input dtype")
    | some d => .ok (d, [])
  | some d =>
    if d ∈ SUPPORTED_DTYPES then
      match regDtype with
      | some prev =>
        if prev ≠ d then .ok (d, ["Input dtype is not equal to last layer output dtype"])
        else .ok (d, [])
      | none => .ok (d, [])
    else .error (.configurationError "unsupported input_dtype")

/-- Embeds the input-size resolution of ComplexLayer.__init__ (layers.py
lines 82-95), symmetric to the dtype logic but with no supported-set
check. -/
def resolveInputSize {σ : Type} [DecidableEq σ] (regSize : Option σ) (input_size : Option σ) :
    Except LayerError (σ × List String) :=
  match input_size with
  | none =>
    match regSize with
    | none => .error (.configurationError "First layer must be given an input size")
    | some s => .ok (s, [])
  | some s =>
    match regSize with
    | some prev =>
      if prev ≠ s then .ok (s, ["Input size is not equal to last layer output size"])
      else .ok (s, [])
    | none => .ok (s, [])

/-- The data of a constructed base layer: resolved input dtype, resolved
input size and resolved output size. -/
structure BaseLayer (σ : Type) where
  input_dtype : Dtype
  input_size : σ
  output_size : σ
  deriving DecidableEq, Repr

/-- Embeds ComplexLayer.__init__ (layers.py lines 47-107) for a variant
with a trivial _verify_input_size hook (Flatten, Dense, Dropout,
Convolutional): resolve the input dtype, publish it as the Registry
dtype (line 80), resolve the input size, run the output-size computation
on the resolved input size, and publish the output size to the Registry
(lines 103-105). -/
def constructBase {σ : Type} [DecidableEq σ] (reg : Registry σ) (input_dtype : Option Dtype)
    (input_size : Option σ) (output_size : σ → σ) :
    Except LayerError (BaseLayer σ × Registry σ × List String) :=
  match resolveInputDtype reg.last_layer_output_dtype input_dtype with
  | .error e => .error e
  | .ok (d, w1) =>
    match resolveInputSize reg.last_layer_output_size input_size with
    | .error e => .error e
    | .ok (s, w2) =>
      let out := output_size s
      .ok (⟨d, s, out⟩, ⟨some d, some out⟩, w1 ++ w2)

/-- C1: on an unset Registry, constructing a layer that omits the input
dtype or the input size fails with a ConfigurationError, for every
supported dtype; and once a first layer has been constructed with
explicit dtype and size, a second layer constructed with neither
inherits exactly the dtype and output size the first layer published to
the Registry. -/
theorem first_layer_explicit_and_inheritance {σ : Type} [DecidableEq σ] (d : Dtype)
    (hd : d ∈ SUPPORTED_DTYPES) (s : σ) (f g : σ → σ)
    (l1 : BaseLayer σ) (reg1 : Registry σ) (w1 : List String)
    (h : constructBase ⟨none, none⟩ (some d) (some s) f = .ok (l1, reg1, w1)) :
    constructBase (σ := σ) ⟨none, none⟩ none none f =
      .error (.configurationError "First layer must be given an input dtype") ∧
    constructBase (σ := σ) ⟨none, none⟩ (some d) none f =
      .error (.configurationError "First layer must be given an input size") ∧
    constructBase ⟨none, none⟩ none (some s) f =
      .error (.configurationError "First layer must be given an input dtype") ∧
    reg1 = ⟨some l1.input_dtype, some l1.output_size⟩ ∧
    constructBase reg1 none none g =
      .ok (⟨l1.input_dtype, l1.output_size, g l1.output_size⟩,
           ⟨some l1.input_dtype, some (g l1.output_size)⟩, []) := by
  simp only [constructBase, resolveInputDtype, resolveInputSize, if_pos hd] at h
  obtain ⟨h1, h2, h3⟩ : l1 = ⟨d, s, f s⟩ ∧ reg1 = ⟨some d, some (f s)⟩ ∧ w1 = [] := by
    cases h
    exact ⟨rfl, rfl, rfl⟩
  subst h1; subst h2
  refine ⟨rfl, ?_, rfl, rfl, rfl⟩
  simp [constructBase, resolveInputDtype, resolveInputSize, if_pos hd]

/-- Witness for C1 at a concrete supported dtype, size and output
computations. -/
theorem first_layer_explicit_and_inheritance_witness :
    constructBase (σ := Shape) ⟨none, none⟩ none none id =
      .error (.configurationError "First layer must be given an input dtype") ∧
    constructBase (σ := Shape) ⟨none, none⟩ (some .complex64) none id =
      .error (.configurationError "First layer must be given an input size") ∧
    constructBase ⟨none, none⟩ none (some ([3] : Shape)) id =
      .error (.configurationError "First layer must be given an input dtype") ∧
    (⟨some .complex64, some [3]⟩ : Registry Shape) =
      ⟨some (BaseLayer.input_dtype ⟨.complex64, [3], [3]⟩),
       some (BaseLayer.output_size ⟨.complex64, [3], [3]⟩)⟩ ∧
    constructBase (⟨some .complex64, some [3]⟩ : Registry Shape) none none id =
      .ok (⟨BaseLayer.input_dtype ⟨.complex64, [3], [3]⟩,
            BaseLayer.output_size ⟨.complex64, ([3] : Shape), [3]⟩,
            id (BaseLayer.output_size ⟨.complex64, ([3] : Shape), [3]⟩)⟩,
           ⟨some (BaseLayer.input_dtype ⟨.complex64, [3], [3]⟩),
            some (id (BaseLayer.output_size ⟨.complex64, ([3] : Shape), [3]⟩))⟩, []) :=
  first_layer_explicit_and_inheritance Dtype.complex64 (by decide) [3] id id
    ⟨.complex64, [3], [3]⟩ ⟨some .complex64, some [3]⟩ [] (by rfl)

/-- Embeds PADDING_MODES (layers.py lines 33-37). -/
def PADDING_MODES : List String := ["valid", "same", "full"]

/-- Embeds DATA_FORMAT (layers.py lines 21-24). -/
def DATA_FORMAT : List String := ["channels_last", "channels_first"]

/-- A kernel or stride argument: either a single int broadcast over the
spatial dimensions or an explicit sequence (layers.py lines 27-28). -/
inductive IntOrSeq where
  | int (n : Int)
  | seq (l : List Int)
  deriving DecidableEq, Repr

/-- A padding argument: an int, an explicit sequence, or a named mode
string (layers.py line 29).  Arguments of any other python type hit the
final else branch of the source and are not representable here. -/
inductive PaddingArg where
  | int (n : Int)
  | seq (l : List Int)
  | str (s : String)
  deriving DecidableEq, Repr

/-- Embeds the kernel-shape normalization shared by
Convolutional._calculate_shapes (layers.py lines 562-568) and
FrequencyConvolutional2D._verify_kernel_shape (lines 917-923): an int is
broadcast over every spatial dimension (one less than the input length,
the last dimension being the channel), a sequence is taken as given. -/
def normalize_kernel (input_size : Shape) (kernel_shape : IntOrSeq) : List Int :=
  match kernel_shape with
  | .int n => List.replicate (input_size.length - 1) n
  | .seq l => l

/-- Lowercasing of mode strings, the str.lower() calls of the source,
computed on the character list so that concrete instances reduce. -/
def pyLower (s : String) : String := ⟨s.data.map Char.toLower⟩

/-- Embeds the padding normalization of Convolutional._calculate_shapes
(layers.py lines 572-597).  An explicit sequence is used as given with no
length validation; mode same emits its warning only when every kernel
dimension is even (np.all on line 584) and sets the padding to the floor
of half of each kernel dimension. -/
def conv_padding (input_size : Shape) (kernel : List Int) (padding : PaddingArg) :
    Except LayerError (List Int × List String) :=
  match padding with
  | .int n => .ok (List.replicate (input_size.length - 1) n, [])
  | .seq l => .ok (l, [])
  | .str s =>
    let s' := pyLower s
    if s' ∈ PADDING_MODES then
      if s' = "valid" then .ok (List.replicate (input_size.length - 1) 0, [])
      else if s' = "same" then
        .ok (kernel.map (fun k => Int.fdiv k 2),
          if ∀ k ∈ kernel, k % 2 = 0 then
            ["Same padding needs the kernel to have an odd value"]
          else [])
      else if s' = "full" then .ok (kernel.map (fun k => k - 1), [])
      else .error (.configurationError ("Unknown padding " ++ s' ++ " but listed in PADDING_MODES"))
    else .error (.configurationError ("Unknown padding " ++ s'))

/-- Embeds the stride normalization of Convolutional._calculate_shapes
(layers.py lines 598-606), mirroring the int/sequence handling of the
kernel with no named modes. -/
def conv_stride (input_size : Shape) (stride : IntOrSeq) : List Int :=
  match stride with
  | .int n => List.replicate (input_size.length - 1) n
  | .seq l => l

/-- Sequence indexing as the python subscript: out of range raises
IndexError. -/
def getEntry (l : List Int) (i : Nat) : Except LayerError Int :=
  match l.get? i with
  | some x => .ok x
  | none => .error .indexError

/-- One iteration of the output-extent loop of
Convolutional._calculate_shapes (layers.py lines 608-612): the spatial
extent of output dimension i is floor((input_i + 2*padding_i - kernel_i)
/ stride_i) + 1. -/
def conv_out_dim (input_size ps ks ss : List Int) (i : Nat) : Except LayerError Int :=
  match input_size.get? i, ps.get? i, ks.get? i, ss.get? i with
  | some n, some p, some k, some s => .ok (Int.fdiv (n + 2 * p - k) s + 1)
  | none, _, _, _ => .error .indexError
  | some _, none, _, _ => .error .indexError
  | some _, some _, none, _ => .error .indexError
  | some _, some _, some _, none => .error .indexError

/-- Runs f on 0, 1, ..., n-1 in order, collecting the results, stopping at
the first error: the python for-loop with appends. -/
def mapRangeM (f : Nat → Except LayerError Int) : Nat → Except LayerError (List Int)
  | 0 => .ok []
  | n + 1 =>
    match mapRangeM f n with
    | .error e => .error e
    | .ok xs =>
      match f n with
      | .error e => .error e
      | .ok x => .ok (xs ++ [x])

/-- The shape data resolved by Convolutional._calculate_shapes: the fields
kernel_shape, padding_shape, stride_shape and output_size that the method
sets on self. -/
structure ConvShapes where
  kernel_shape : List Int
  padding_shape : List Int
  stride_shape : List Int
  output_size : List Int
  deriving DecidableEq, Repr

/-- Embeds Convolutional._calculate_shapes (layers.py lines 561-615) with
the self fields it reads (input_size, filters) as parameters: normalize
the kernel, reject any kernel dimension not strictly greater than 1,
normalize padding and stride, compute each spatial output extent, and
append the filter count as the channel dimension. -/
def calculate_shapes (input_size : Shape) (filters : Int) (kernel_shape : IntOrSeq)
    (padding : PaddingArg) (stride : IntOrSeq) : Except LayerError (ConvShapes × List String) :=
  if ∀ x ∈ normalize_kernel input_size kernel_shape, 1 < x then
    match conv_padding input_size (normalize_kernel input_size kernel_shape) padding with
    | .error e => .error e
    | .ok (ps, w) =>
      match mapRangeM (conv_out_dim input_size ps (normalize_kernel input_size kernel_shape)
          (conv_stride input_size stride)) (input_size.length - 1) with
      | .error e => .error e
      | .ok ds =>
        .ok (⟨normalize_kernel input_size kernel_shape, ps, conv_stride input_size stride,
              ds ++ [filters]⟩, w)
  else .error (.configurationError "Kernel shape must have all values bigger than 1")

theorem conv_out_dim_ok {input_size ps ks ss : List Int} {i : Nat} {y : Int}
    (h : conv_out_dim input_size ps ks ss i = .ok y) :
    ∃ n p k s, input_size.get? i = some n ∧ ps.get? i = some p ∧ ks.get? i = some k ∧
      ss.get? i = some s ∧ y = Int.fdiv (n + 2 * p - k) s + 1 := by
  unfold conv_out_dim at h
  split at h
  next n p k s hn hp hk hs =>
    cases h
    exact ⟨n, p, k, s, hn, hp, hk, hs, rfl⟩
  all_goals cases h

theorem mapRangeM_ok {f : Nat → Except LayerError Int} :
    ∀ {n : Nat} {l : List Int}, mapRangeM f n = .ok l →
      l.length = n ∧ ∀ i, i < n → ∃ y, f i = .ok y ∧ l.get? i = some y := by
  intro n
  induction n with
  | zero =>
    intro l h
    cases h
    exact ⟨rfl, fun i hi => absurd hi (Nat.not_lt_zero i)⟩
  | succ n ih =>
    intro l h
    unfold mapRangeM at h
    cases hm : mapRangeM f n with
    | error e => rw [hm] at h; cases h
    | ok xs =>
      rw [hm] at h
      cases hf : f n with
      | error e => rw [hf] at h; cases h
      | ok x =>
        rw [hf] at h
        cases h
        obtain ⟨hlen, hall⟩ := ih hm
        constructor
        · simp [hlen]
        · intro i hi
          rcases Nat.lt_succ_iff_lt_or_eq.mp hi with hlt | heq
          · obtain ⟨y, hy, hget⟩ := hall i hlt
            exact ⟨y, hy, by rw [List.get?_append (hlen ▸ hlt), hget]⟩
          · subst heq
            exact ⟨x, hf, by rw [← hlen, List.get?_concat_length]⟩

/-- C2: when the shape-resolution stage of a Direct-Convolution layer
succeeds, every spatial output extent equals floor((input_i +
2*padding_i - kernel_i) / stride_i) + 1 over the resolved padding,
kernel and stride, and the channel dimension of the output is the filter
count; in particular (H=5,k=3,p=0,s=1) gives 3, (H=5,k=3,p=1,s=1) gives
5 and (H=5,k=2,p=0,s=2) gives 2. -/
theorem conv_output_extent (input_size : Shape) (filters : Int) (k : IntOrSeq)
    (p : PaddingArg) (s : IntOrSeq) (c : ConvShapes) (w : List String)
    (h : calculate_shapes input_size filters k p s = .ok (c, w)) :
    ((∀ i, i < input_size.length - 1 →
      ∃ n pi ki si, input_size.get? i = some n ∧ c.padding_shape.get? i = some pi ∧
        c.kernel_shape.get? i = some ki ∧ c.stride_shape.get? i = some si ∧
        c.output_size.get? i = some (Int.fdiv (n + 2 * pi - ki) si + 1)) ∧
      c.output_size.get? (input_size.length - 1) = some filters ∧
      c.output_size.length = (input_size.length - 1) + 1) ∧
    calculate_shapes [5, 1] 1 (.int 3) (.int 0) (.int 1) = .ok (⟨[3], [0], [1], [3, 1]⟩, []) ∧
    calculate_shapes [5, 1] 1 (.int 3) (.int 1) (.int 1) = .ok (⟨[3], [1], [1], [5, 1]⟩, []) ∧
    calculate_shapes [5, 1] 1 (.int 2) (.int 0) (.int 2) = .ok (⟨[2], [0], [2], [2, 1]⟩, []) := by
  refine ⟨?_, rfl, rfl, rfl⟩
  unfold calculate_shapes at h
  split at h
  · split at h
    · cases h
    next ps w' hp =>
      split at h
      · cases h
      next ds hd =>
        cases h
        obtain ⟨hlen, hall⟩ := mapRangeM_ok hd
        refine ⟨?_, ?_, ?_⟩
        · intro i hi
          obtain ⟨y, hy, hget⟩ := hall i hi
          obtain ⟨n, pi, ki, si, hn, hpi, hki, hsi, hy'⟩ := conv_out_dim_ok hy
          exact ⟨n, pi, ki, si, hn, hpi, hki, hsi, by
            show (ds ++ [filters]).get? i = _
            rw [List.get?_append (hlen ▸ hi), hget, hy']⟩
        · show (ds ++ [filters]).get? (input_size.length - 1) = some filters
          rw [← hlen, List.get?_concat_length]
        · show (ds ++ [filters]).length = input_size.length - 1 + 1
          simp [hlen]
  · cases h

/-- Witness for C2 at a concrete successful construction. -/
theorem conv_output_extent_witness :
    ((∀ i, i < ([28, 28, 3] : Shape).length - 1 →
      ∃ n pi ki si, ([28, 28, 3] : Shape).get? i = some n ∧
        (ConvShapes.padding_shape ⟨[3, 3], [1, 1], [1, 1], [28, 28, 2]⟩).get? i = some pi ∧
        (ConvShapes.kernel_shape ⟨[3, 3], [1, 1], [1, 1], [28, 28, 2]⟩).get? i = some ki ∧
        (ConvShapes.stride_shape ⟨[3, 3], [1, 1], [1, 1], [28, 28, 2]⟩).get? i = some si ∧
        (ConvShapes.output_size ⟨[3, 3], [1, 1], [1, 1], [28, 28, 2]⟩).get? i =
          some (Int.fdiv (n + 2 * pi - ki) si + 1)) ∧
      (ConvShapes.output_size ⟨[3, 3], [1, 1], [1, 1], [28, 28, 2]⟩).get?
        (([28, 28, 3] : Shape).length - 1) = some 2 ∧
      (ConvShapes.output_size ⟨[3, 3], [1, 1], [1, 1], [28, 28, 2]⟩).length =
        (([28, 28, 3] : Shape).length - 1) + 1) ∧
    calculate_shapes [5, 1] 1 (.int 3) (.int 0) (.int 1) = .ok (⟨[3], [0], [1], [3, 1]⟩, []) ∧
    calculate_shapes [5, 1] 1 (.int 3) (.int 1) (.int 1) = .ok (⟨[3], [1], [1], [5, 1]⟩, []) ∧
    calculate_shapes [5, 1] 1 (.int 2) (.int 0) (.int 2) = .ok (⟨[2], [0], [2], [2, 1]⟩, []) :=
  conv_output_extent [28, 28, 3] 2 (.int 3) (.str "same") (.int 1)
    ⟨[3, 3], [1, 1], [1, 1], [28, 28, 2]⟩ [] (by rfl)

/-- C5 counterexample: kernel (2, 3) has an even dimension, yet same
padding resolves with no warning (the source warns only when np.all of
the dimensions are even); the padding itself is still the floor of half
of each kernel dimension. -/
theorem same_padding_warning_counterexample :
    calculate_shapes [5, 5, 1] 1 (.seq [2, 3]) (.str "same") (.int 1) =
      .ok (⟨[2, 3], [1, 1], [1, 1], [6, 5, 1]⟩, []) ∧ (2 : Int) % 2 = 0 :=
  ⟨by rfl, by decide⟩

theorem conv_padding_same (input_size : Shape) (ks : List Int) :
    conv_padding input_size ks (.str "same") =
      .ok (ks.map (fun x => Int.fdiv x 2),
        if ∀ x ∈ ks, x % 2 = 0 then
          ["Same padding needs the kernel to have an odd value"]
        else []) := by
  rfl

/-- C5 amended: normalizing the named mode same yields padding_i =
floor(kernel_i / 2) for every spatial dimension, and a Warning is
emitted precisely when every kernel dimension is even (construction
still proceeds either way). -/
theorem same_padding_amended (input_size : Shape) (filters : Int) (k : IntOrSeq) (s : IntOrSeq)
    (c : ConvShapes) (w : List String)
    (h : calculate_shapes input_size filters k (.str "same") s = .ok (c, w)) :
    c.padding_shape = c.kernel_shape.map (fun x => Int.fdiv x 2) ∧
    (w ≠ [] ↔ ∀ x ∈ c.kernel_shape, x % 2 = 0) := by
  unfold calculate_shapes at h
  rw [conv_padding_same] at h
  split at h
  · dsimp only at h
    split at h
    · cases h
    next ds hd =>
      cases h
      refine ⟨rfl, ?_⟩
      by_cases he : ∀ x ∈ normalize_kernel input_size k, x % 2 = 0
      · simp only [ConvShapes.kernel_shape, if_pos he]
        simpa using he
      · simp only [ConvShapes.kernel_shape, if_neg he]
        simpa using he
  · cases h

/-- Witness for C5 amended: a kernel with every dimension even does warn
and still resolves, with padding the floor of half the kernel. -/
theorem same_padding_amended_witness :
    (ConvShapes.padding_shape ⟨[2, 2], [1, 1], [1, 1], [6, 6, 1]⟩ : List Int) =
      (ConvShapes.kernel_shape ⟨[2, 2], [1, 1], [1, 1], [6, 6, 1]⟩).map
        (fun x => Int.fdiv x 2) ∧
    ((["Same padding needs the kernel to have an odd value"] : List String) ≠ [] ↔
      ∀ x ∈ ConvShapes.kernel_shape ⟨[2, 2], [1, 1], [1, 1], [6, 6, 1]⟩, x % 2 = 0) :=
  same_padding_amended [5, 5, 1] 1 (.seq [2, 2]) (.int 1)
    ⟨[2, 2], [1, 1], [1, 1], [6, 6, 1]⟩
    ["Same padding needs the kernel to have an odd value"] (by rfl)

/-- Embeds FFT2DTransform._check_padding (layers.py lines 463-486): an int
is broadcast, an explicit sequence must have length exactly 2 (fatal
otherwise), the mode valid is zero padding, and the modes same and full,
though listed in PADDING_MODES, are rejected here. -/
def fft_check_padding (input_size : Shape) (padding : PaddingArg) :
    Except LayerError (List Int × List String) :=
  match padding with
  | .int n => .ok (List.replicate (input_size.length - 1) n, [])
  | .seq l =>
    if l.length = 2 then .ok (l, [])
    else .error (.configurationError "Padding should have length 2")
  | .str s =>
    let s' := pyLower s
    if s' ∈ PADDING_MODES then
      if s' = "valid" then .ok (List.replicate (input_size.length - 1) 0, [])
      else .error (.configurationError ("Unknown padding " ++ s' ++ " but listed in PADDING_MODES"))
    else .error (.configurationError ("Unknown padding " ++ s'))

/-- C6 counterexample: a Direct-Convolution shape resolution with an
explicit padding sequence of length 3 on an input with 2 spatial
dimensions succeeds, using the sequence as given, where the claim
demands a ConfigurationError. -/
theorem padding_seq_length_counterexample :
    calculate_shapes [5, 5, 1] 1 (.int 3) (.seq [1, 1, 1]) (.int 1) =
      .ok (⟨[3, 3], [1, 1, 1], [1, 1], [5, 5, 1]⟩, []) := by
  rfl

/-- C6 amended: only the FFT-Transform validates an explicit padding
sequence, rejecting any length other than 2 with a ConfigurationError;
the Direct-Convolution normalization accepts any sequence as given with
no length check, and a too-short sequence only fails later, in the
output-extent loop, with an IndexError rather than a
ConfigurationError. -/
theorem padding_seq_length_amended (input_size : Shape) (ks l : List Int) :
    (fft_check_padding input_size (.seq l) =
      if l.length = 2 then .ok (l, [])
      else .error (.configurationError "Padding should have length 2")) ∧
    conv_padding input_size ks (.seq l) = .ok (l, []) ∧
    calculate_shapes [5, 5, 1] 1 (.int 3) (.seq [1]) (.int 1) = .error .indexError :=
  ⟨rfl, rfl, rfl⟩

/-- Embeds the channel-axis normalization at the top of
FFT2DTransform._verify_input_size (layers.py lines 429-437): an input of
length 2 is assumed to have an implicit channel, with a warning; for
channels_last a trailing channel of size 1 is appended; the
channels_first branch calls insert on the stored tuple, which raises an
AttributeError. -/
def fft_adjust_channel (data_format : String) (s : Shape) :
    Except LayerError (Shape × List String) :=
  if s.length = 2 then
    if data_format = "channels_last" then
      .ok (s ++ [1], ["Assuming channel was implicit. Adding axis."])
    else .error .attributeError
  else .ok (s, [])

/-- Embeds the input-size mutation at the end of
FFT2DTransform._verify_input_size (layers.py lines 442-448): the
resolved padding is added to the two spatial dimensions of the stored
rank-3 input size. -/
def fft_add_padding (data_format : String) (s ps : List Int) : Except LayerError Shape :=
  match s, ps with
  | [a, b, c], [p0, p1] =>
    if data_format = "channels_last" then .ok [a + p0, b + p1, c]
    else .ok [a, b + p0, c + p1]
  | _, _ => .error .indexError

/-- The state of a constructed FFT2DTransform.  The field
inst_last_layer_output_dtype records the assignment
self.last_layer_output_dtype = np.complex64 of layers.py line 423: that
line creates an instance attribute shadowing the class attribute, so the
class-level Registry slot that the next constructor reads is not touched
by it. -/
structure FFT2DLayer where
  data_format : String
  input_dtype : Dtype
  input_size : Shape
  padding_shape : List Int
  output_size : Shape
  inst_last_layer_output_dtype : Dtype
  deriving DecidableEq, Repr

/-- Embeds FFT2DTransform.__init__ (layers.py lines 406-426) together with
the base constructor it invokes: lowercase and store the data format (an
unrecognized one leaves self.data_format unset, surfacing as an
AttributeError at its first use), resolve dtype and size through the
Registry, publish the resolved input dtype as the Registry dtype (line
80), normalize the channel axis, assert the rank is 3, resolve the
padding, add it to the stored input size, set output_size equal to the
stored input size, publish the output size, and finally perform the
instance-level dtype assignment of line 423. -/
def fftConstruct (reg : Registry Shape) (input_size : Option Shape) (input_dtype : Option Dtype)
    (padding : PaddingArg) (data_format : String) :
    Except LayerError (FFT2DLayer × Registry Shape × List String) :=
  if pyLower data_format ∈ DATA_FORMAT then
    match resolveInputDtype reg.last_layer_output_dtype input_dtype with
    | .error e => .error e
    | .ok (d, w1) =>
      match resolveInputSize reg.last_layer_output_size input_size with
      | .error e => .error e
      | .ok (s0, w2) =>
        match fft_adjust_channel (pyLower data_format) s0 with
        | .error e => .error e
        | .ok (s1, w3) =>
          if s1.length = 3 then
            match fft_check_padding s1 padding with
            | .error e => .error e
            | .ok (ps, w4) =>
              match fft_add_padding (pyLower data_format) s1 ps with
              | .error e => .error e
              | .ok s2 =>
                .ok (⟨pyLower data_format, d, s2, ps, s2, .complex64⟩,
                     ⟨some d, some s2⟩, w1 ++ w2 ++ w3 ++ w4)
          else .error .assertionError
  else .error .attributeError

/-- C3 (code bug evidence): constructing an FFT-Transform with float32
input kind leaves float32, not the complex kind, in the Registry.  Line
423 assigns np.complex64 to an instance attribute (the
inst_last_layer_output_dtype field below), while the class-level
Registry slot keeps the input dtype published on line 80; hence a layer
constructed next with no explicit kind inherits float32. -/
theorem fft_registry_kind_bug :
    fftConstruct ⟨none, none⟩ (some [4, 4, 1]) (some .float32) (.int 0) "channels_last" =
      .ok (⟨"channels_last", .float32, [4, 4, 1], [0, 0], [4, 4, 1], .complex64⟩,
           ⟨some .float32, some [4, 4, 1]⟩, []) ∧
    resolveInputDtype (some .float32) none = .ok (.float32, []) ∧
    Dtype.float32 ≠ Dtype.complex64 :=
  ⟨by rfl, by rfl, by decide⟩

/-- A tensor as seen by the construction-time activation probe: a dtype, a
shape and the flattened entries as (real lane, imaginary lane) rational
pairs; a tensor of a real dtype keeps a zero imaginary lane. -/
structure Tensor where
  dtype : Dtype
  shape : List Int
  entries : List (ℚ × ℚ)
  deriving DecidableEq, Repr

/-- Whether a dtype is a complex kind. -/
def isComplexDtype : Dtype → Bool
  | .complex64 => true
  | .complex128 => true
  | .float32 => false
  | .float64 => false

/-- Models tf.cast on values: casting to a real dtype keeps the real lane
and discards the imaginary lane; casting to a complex dtype keeps both
lanes. -/
def castTensor (t : Tensor) (d : Dtype) : Tensor :=
  if isComplexDtype d then ⟨d, t.shape, t.entries⟩
  else ⟨d, t.shape, t.entries.map (fun e => (e.1, 0))⟩

/-- The fixed 2x2 complex unit tensor
tf.complex([[1., 1.], [1., 1.]], [[1., 1.], [1., 1.]]) built by the Dense
construction probe (layers.py line 251). -/
def complexProbe : Tensor := ⟨.complex64, [2, 2], [(1, 1), (1, 1), (1, 1), (1, 1)]⟩

/-- The configuration state of a constructed Dense layer. -/
structure DenseLayer where
  input_dtype : Dtype
  input_size : Int
  output_size : Int
  dropout : Option ℚ
  deriving DecidableEq, Repr

/-- Embeds Dense.__init__ (layers.py lines 221-262) together with the base
constructor: resolve dtype and size through the Registry, then (lines
248-252) apply the activation collaborator once to the complex unit 2x2
tensor cast to the resolved input dtype and store the dtype of the
result in the Registry dtype slot, overwriting the input dtype the base
constructor published there.  The last component of the result is the
list of tensors the activation was invoked on during construction; the
weight and bias initializers (lines 254-262) involve no activation call
and no Registry access. -/
def denseConstruct (reg : Registry Int) (output_size : Int) (input_size : Option Int)
    (activation : Tensor → Tensor) (input_dtype : Option Dtype) (dropout : Option ℚ) :
    Except LayerError (DenseLayer × Registry Int × List String × List Tensor) :=
  match resolveInputDtype reg.last_layer_output_dtype input_dtype with
  | .error e => .error e
  | .ok (d, w1) =>
    match resolveInputSize reg.last_layer_output_size input_size with
    | .error e => .error e
    | .ok (s, w2) =>
      .ok (⟨d, s, output_size, dropout⟩,
           ⟨some (activation (castTensor complexProbe d)).dtype, some output_size⟩,
           w1 ++ w2, [castTensor complexProbe d])

/-- C4 counterexample: for a Dense layer whose input kind is float32, the
sole activation invocation during construction receives the probe cast
to float32 - a real tensor - and not the fixed complex probe the claim
states. -/
theorem dense_probe_counterexample :
    denseConstruct ⟨none, none⟩ 4 (some 3) id (some .float32) none =
      .ok (⟨.float32, 3, 4, none⟩, ⟨some .float32, some 4⟩, [],
           [⟨.float32, [2, 2], [(1, 0), (1, 0), (1, 0), (1, 0)]⟩]) ∧
    (⟨.float32, [2, 2], [(1, 0), (1, 0), (1, 0), (1, 0)]⟩ : Tensor) ≠ complexProbe ∧
    isComplexDtype (Tensor.dtype ⟨.float32, [2, 2], [(1, 0), (1, 0), (1, 0), (1, 0)]⟩) =
      false :=
  ⟨by rfl, by decide, by rfl⟩

/-- C4 amended: constructing a Dense layer invokes its activation exactly
once, on the fixed 2x2 complex unit tensor cast to the resolved input
kind (the complex probe itself precisely when the input kind is
complex), and publishes the kind of the result of that invocation, not
the input kind, as the Registry output kind. -/
theorem dense_probe_amended (reg : Registry Int) (output_size : Int) (input_size : Option Int)
    (activation : Tensor → Tensor) (input_dtype : Option Dtype) (dropout : Option ℚ)
    (l : DenseLayer) (reg' : Registry Int) (w : List String) (calls : List Tensor)
    (h : denseConstruct reg output_size input_size activation input_dtype dropout =
      .ok (l, reg', w, calls)) :
    calls = [castTensor complexProbe l.input_dtype] ∧
    reg'.last_layer_output_dtype =
      some (activation (castTensor complexProbe l.input_dtype)).dtype ∧
    (l.input_dtype = .complex64 → calls = [complexProbe]) := by
  unfold denseConstruct at h
  split at h
  · cases h
  next d w1 hd =>
    split at h
    · cases h
    next s w2 hs =>
      cases h
      refine ⟨rfl, rfl, ?_⟩
      intro hc
      simp only [DenseLayer.input_dtype] at hc ⊢
      rw [hc]
      rfl

/-- A modulus-like activation used in witnesses: collapses any tensor to
float32, keeping the real lane. -/
def absActivation (t : Tensor) : Tensor := castTensor t .float32

/-- Witness for C4 amended at a complex Dense layer whose activation
collapses to float32: the probe is the fixed complex tensor and the
published kind is the float32 kind of the probe result, not the complex
input kind. -/
theorem dense_probe_amended_witness :
    ([complexProbe] : List Tensor) =
      [castTensor complexProbe (DenseLayer.input_dtype ⟨.complex64, 3, 4, none⟩)] ∧
    Registry.last_layer_output_dtype (⟨some .float32, some 4⟩ : Registry Int) =
      some (Tensor.dtype (absActivation (castTensor complexProbe
        (DenseLayer.input_dtype ⟨.complex64, 3, 4, none⟩)))) ∧
    (DenseLayer.input_dtype ⟨.complex64, 3, 4, none⟩ = .complex64 →
      ([complexProbe] : List Tensor) = [complexProbe]) :=
  dense_probe_amended ⟨none, none⟩ 4 (some 3) absActivation (some .complex64) none
    ⟨.complex64, 3, 4, none⟩ ⟨some .float32, some 4⟩ [] [complexProbe] (by rfl)

/-- Embeds FrequencyConvolutional2D._verify_input_size (layers.py lines
899-911): a rank-2 input gains an implicit channel axis of size 1
(trailing for channels_last, leading for channels_first); any rank other
than 2 or 3 is fatal. -/
def freq_verify_input_size (data_format : String) (s : Shape) : Except LayerError Shape :=
  if s.length = 2 then
    if data_format = "channels_last" then .ok (s ++ [1])
    else if data_format = "channels_first" then .ok ([1] ++ s)
    else .error (.configurationError "data_format unknown")
  else if s.length = 3 then .ok s
  else .error (.configurationError "Input shape must be of size 3")

/-- Embeds FrequencyConvolutional2D._calculate_output_shape (layers.py
lines 929-939): the last entry of the stored input size is replaced by
the filter count, appended for channels_last and prepended for
channels_first. -/
def freq_calculate_output_shape (data_format : String) (filters : Int) (s : Shape) :
    Except LayerError Shape :=
  if data_format = "channels_last" then .ok (s.dropLast ++ [filters])
  else if data_format = "channels_first" then .ok ([filters] ++ s.dropLast)
  else .error (.configurationError "data_format unknown")

/-- Embeds FrequencyConvolutional2D._verify_kernel_shape (layers.py lines
913-927): normalize the kernel, reject any dimension not strictly
greater than 1 with the fatal configuration error, then assert the
kernel rank is 2. -/
def freq_verify_kernel_shape (input_size : Shape) (kernel_shape : IntOrSeq) :
    Except LayerError (List Int) :=
  if ∀ x ∈ normalize_kernel input_size kernel_shape, 1 < x then
    if (normalize_kernel input_size kernel_shape).length = 2 then
      .ok (normalize_kernel input_size kernel_shape)
    else .error .assertionError
  else .error (.configurationError "Kernel shape must have all values bigger than 1")

/-- The configuration state of a constructed FrequencyConvolutional2D,
without the tensors drawn from the random initializer collaborator. -/
structure FreqConv2DLayer where
  filters : Int
  dropout : Option ℚ
  padding : String
  data_format : String
  input_dtype : Dtype
  input_size : Shape
  output_size : Shape
  kernel_shape : List Int
  deriving DecidableEq, Repr

/-- The warning text of layers.py line 827. -/
def msg_only_same : String := "Only same padding mode supported, changing it."

/-- The padding-independent part of FrequencyConvolutional2D.__init__
(layers.py lines 805-845 except the padding warning of lines 826-828):
validate the data format, resolve the input dtype through the Registry
with the hard-coded explicit np.complex64 (line 843), resolve the input
size, normalize its channel axis, compute the output shape, publish
dtype and output size to the Registry, and verify the kernel shape (the
start of _init_kernel on line 870, whose remaining work only draws
tensors from the initializer collaborator).  The stored padding field is
the unconditional "same" of line 828. -/
def freqConvCore (reg : Registry Shape) (filters : Int) (kernel_shape : IntOrSeq)
    (input_shape : Option Shape) (data_format : String) (dropout : Option ℚ) :
    Except LayerError (FreqConv2DLayer × Registry Shape × List String) :=
  if pyLower data_format ∈ DATA_FORMAT then
    match resolveInputDtype reg.last_layer_output_dtype (some .complex64) with
    | .error e => .error e
    | .ok (d, w1) =>
      match resolveInputSize reg.last_layer_output_size input_shape with
      | .error e => .error e
      | .ok (s0, w2) =>
        match freq_verify_input_size (pyLower data_format) s0 with
        | .error e => .error e
        | .ok s =>
          match freq_calculate_output_shape (pyLower data_format) filters s with
          | .error e => .error e
          | .ok out =>
            match freq_verify_kernel_shape s kernel_shape with
            | .error e => .error e
            | .ok ks =>
              .ok (⟨filters, dropout, "same", pyLower data_format, d, s, out, ks⟩,
                   ⟨some d, some out⟩, w1 ++ w2)
  else .error (.configurationError "data_format unknown")

/-- Embeds FrequencyConvolutional2D.__init__ (layers.py lines 805-845):
any padding request whose lowercase form is not "same" emits the warning
of line 827; self.padding is set to "same" unconditionally on line 828
and the padding argument is never read again. -/
def freqConvConstruct (reg : Registry Shape) (filters : Int) (kernel_shape : IntOrSeq)
    (input_shape : Option Shape) (padding : String) (data_format : String)
    (dropout : Option ℚ) : Except LayerError (FreqConv2DLayer × Registry Shape × List String) :=
  match freqConvCore reg filters kernel_shape input_shape data_format dropout with
  | .error e => .error e
  | .ok (l, r, w) =>
    .ok (l, r, (if pyLower padding = "same" then [] else [msg_only_same]) ++ w)

theorem freqConvCore_padding {reg : Registry Shape} {filters : Int} {kernel_shape : IntOrSeq}
    {input_shape : Option Shape} {data_format : String} {dropout : Option ℚ}
    {l : FreqConv2DLayer} {r : Registry Shape} {w : List String}
    (h : freqConvCore reg filters kernel_shape input_shape data_format dropout = .ok (l, r, w)) :
    l.padding = "same" := by
  unfold freqConvCore at h
  split at h
  · split at h
    · cases h
    next =>
      split at h
      · cases h
      next =>
        split at h
        · cases h
        next =>
          split at h
          · cases h
          next =>
            split at h
            · cases h
            next =>
              cases h
              rfl
  · cases h

/-- C7: a Frequency-Convolution construction given any padding request
other than same produces exactly the state of a construction with
padding "same", with the warning of line 827 prepended; the stored
padding of every successful construction is "same". -/
theorem freq_conv_padding_forced (padding : String) (hp : pyLower padding ≠ "same")
    (reg : Registry Shape) (filters : Int) (kernel_shape : IntOrSeq)
    (input_shape : Option Shape) (data_format : String) (dropout : Option ℚ) :
    freqConvConstruct reg filters kernel_shape input_shape padding data_format dropout =
      (match freqConvConstruct reg filters kernel_shape input_shape "same" data_format dropout
       with
       | .error e => .error e
       | .ok (l, r, w) => .ok (l, r, msg_only_same :: w)) ∧
    ∀ l r w,
      freqConvConstruct reg filters kernel_shape input_shape padding data_format dropout =
        .ok (l, r, w) → l.padding = "same" ∧ msg_only_same ∈ w := by
  have hsame : pyLower "same" = "same" := by decide
  constructor
  · unfold freqConvConstruct
    cases hc : freqConvCore reg filters kernel_shape input_shape data_format dropout with
    | error e => rfl
    | ok t =>
      obtain ⟨l, r, w⟩ := t
      rw [if_neg hp, if_pos hsame]
      rfl
  · intro l r w h
    unfold freqConvConstruct at h
    cases hc : freqConvCore reg filters kernel_shape input_shape data_format dropout with
    | error e => rw [hc] at h; cases h
    | ok t =>
      obtain ⟨l', r', w'⟩ := t
      rw [hc, if_neg hp] at h
      cases h
      exact ⟨freqConvCore_padding hc, List.mem_cons_self _ _⟩

/-- Witness for C7: the concrete padding request "valid" warns and yields
the construction state of "same". -/
theorem freq_conv_padding_forced_witness :
    freqConvConstruct ⟨none, none⟩ 2 (.int 3) (some [8, 8, 3]) "valid" "channels_last" none =
      (match freqConvConstruct ⟨none, none⟩ 2 (.int 3) (some [8, 8, 3]) "same" "channels_last"
        none with
       | .error e => .error e
       | .ok (l, r, w) => .ok (l, r, msg_only_same :: w)) ∧
    ∀ l r w,
      freqConvConstruct ⟨none, none⟩ 2 (.int 3) (some [8, 8, 3]) "valid" "channels_last" none =
        .ok (l, r, w) → l.padding = "same" ∧ msg_only_same ∈ w :=
  freq_conv_padding_forced "valid" (by decide) ⟨none, none⟩ 2 (.int 3) (some [8, 8, 3])
    "channels_last" none

theorem resolveInputDtype_complex64 (rd : Option Dtype) :
    ∃ w, resolveInputDtype rd (some .complex64) = .ok (.complex64, w) := by
  cases rd with
  | none => exact ⟨[], rfl⟩
  | some prev =>
    by_cases hp : prev = Dtype.complex64
    · subst hp
      exact ⟨[], by rfl⟩
    · exact ⟨["Input dtype is not equal to last layer output dtype"], by
        simp [resolveInputDtype, SUPPORTED_DTYPES, hp]⟩

theorem resolveInputSize_some {σ : Type} [DecidableEq σ] (rs : Option σ) (s : σ) :
    ∃ w, resolveInputSize rs (some s) = .ok (s, w) := by
  cases rs with
  | none => exact ⟨[], rfl⟩
  | some prev =>
    by_cases hp : prev = s
    · subst hp
      exact ⟨[], by simp [resolveInputSize]⟩
    · exact ⟨["Input size is not equal to last layer output size"], by
        simp [resolveInputSize, hp]⟩

theorem freqConvCore_kernel_reject (reg : Registry Shape) (filters : Int) (k : IntOrSeq)
    (sh : Shape) (hsh : sh.length = 3) (drop : Option ℚ)
    (hk : ¬ ∀ x ∈ normalize_kernel sh k, 1 < x) :
    freqConvCore reg filters k (some sh) "channels_last" drop =
      .error (.configurationError "Kernel shape must have all values bigger than 1") := by
  obtain ⟨w1, hw1⟩ := resolveInputDtype_complex64 reg.last_layer_output_dtype
  obtain ⟨w2, hw2⟩ := resolveInputSize_some reg.last_layer_output_size sh
  have h3 : freq_verify_input_size (pyLower "channels_last") sh = .ok sh := by
    unfold freq_verify_input_size
    rw [if_neg (by omega), if_pos hsh]
  have h4 : freq_calculate_output_shape (pyLower "channels_last") filters sh =
      .ok (sh.dropLast ++ [filters]) := by
    unfold freq_calculate_output_shape
    rw [if_pos (by decide)]
  have h5 : freq_verify_kernel_shape sh k =
      .error (.configurationError "Kernel shape must have all values bigger than 1") := by
    unfold freq_verify_kernel_shape
    rw [if_neg hk]
  unfold freqConvCore
  rw [if_pos (show pyLower "channels_last" ∈ DATA_FORMAT by decide), hw1]
  dsimp only
  rw [hw2]
  dsimp only
  rw [h3]
  dsimp only
  rw [h4]
  dsimp only
  rw [h5]

/-- C8: a kernel configuration with some dimension not strictly greater
than 1 is rejected with a ConfigurationError, both by the
Direct-Convolution shape resolution and by the Frequency-Convolution
constructor, for an explicit kernel sequence containing such a dimension
as well as for a broadcast int kernel of such a value. -/
theorem kernel_dim_le_one_rejected (input_size : Shape) (filters : Int) (l : List Int)
    (p : PaddingArg) (s : IntOrSeq) (x : Int) (hx : x ∈ l) (hx1 : x ≤ 1)
    (reg : Registry Shape) (sh : Shape) (hsh : sh.length = 3) (drop : Option ℚ)
    (hlen : 2 ≤ input_size.length) :
    calculate_shapes input_size filters (.seq l) p s =
      .error (.configurationError "Kernel shape must have all values bigger than 1") ∧
    freqConvConstruct reg filters (.seq l) (some sh) "same" "channels_last" drop =
      .error (.configurationError "Kernel shape must have all values bigger than 1") ∧
    calculate_shapes input_size filters (.int x) p s =
      .error (.configurationError "Kernel shape must have all values bigger than 1") ∧
    freqConvConstruct reg filters (.int x) (some sh) "same" "channels_last" drop =
      .error (.configurationError "Kernel shape must have all values bigger than 1") := by
  have hseq : ¬ ∀ y ∈ l, 1 < y := fun hall => absurd (hall x hx) (not_lt.mpr hx1)
  have hint : ∀ m : Nat, 1 ≤ m → ¬ ∀ y ∈ List.replicate m x, 1 < y := by
    intro m hm hall
    exact absurd (hall x (List.mem_replicate.mpr ⟨by omega, rfl⟩)) (not_lt.mpr hx1)
  refine ⟨?_, ?_, ?_, ?_⟩
  · unfold calculate_shapes
    rw [if_neg (show ¬ ∀ y ∈ normalize_kernel input_size (.seq l), 1 < y from hseq)]
  · unfold freqConvConstruct
    rw [freqConvCore_kernel_reject reg filters (.seq l) sh hsh drop hseq]
  · unfold calculate_shapes
    rw [if_neg (show ¬ ∀ y ∈ normalize_kernel input_size (.int x), 1 < y from
      hint (input_size.length - 1) (by omega))]
  · unfold freqConvConstruct
    rw [freqConvCore_kernel_reject reg filters (.int x) sh hsh drop
      (by
        show ¬ ∀ y ∈ List.replicate (sh.length - 1) x, 1 < y
        exact hint (sh.length - 1) (by omega))]

/-- Witness for C8 at a concrete kernel containing a dimension of 1. -/
theorem kernel_dim_le_one_rejected_witness :
    calculate_shapes [5, 5, 1] 1 (.seq [1, 3]) (.int 0) (.int 1) =
      .error (.configurationError "Kernel shape must have all values bigger than 1") ∧
    freqConvConstruct ⟨none, none⟩ 1 (.seq [1, 3]) (some [8, 8, 3]) "same" "channels_last"
        none =
      .error (.configurationError "Kernel shape must have all values bigger than 1") ∧
    calculate_shapes [5, 5, 1] 1 (.int 1) (.int 0) (.int 1) =
      .error (.configurationError "Kernel shape must have all values bigger than 1") ∧
    freqConvConstruct ⟨none, none⟩ 1 (.int 1) (some [8, 8, 3]) "same" "channels_last" none =
      .error (.configurationError "Kernel shape must have all values bigger than 1") :=
  kernel_dim_le_one_rejected [5, 5, 1] 1 [1, 3] (.int 0) (.int 1) 1 (by decide) (by decide)
    ⟨none, none⟩ [8, 8, 3] (by decide) none (by decide)

/-- Embeds Convolutional._assign_value (layers.py lines 685-754), the
masked-blend write used because the tensor runtime has no indexed
assignment: a tensor is a map from multi-indices to complex values, the
mask (tf.fill of ones with a single 0 assigned at the target index) is 1
everywhere except the target index, and the result is
array * mask + (1 - mask) * value. -/
def assign_value {ι : Type} [DecidableEq ι] (array : ι → ℂ) (indices : ι) (value : ℂ) :
    ι → ℂ :=
  fun i =>
    array i * (if i = indices then 0 else 1) + (1 - (if i = indices then 0 else 1)) * value

/-- C9: the masked-blend write equals the ordinary indexed store: the
result of assign_value agrees with the original tensor at every
multi-index except the target, which holds exactly the written value. -/
theorem assign_value_eq_update {ι : Type} [DecidableEq ι] (array : ι → ℂ) (indices : ι)
    (value : ℂ) : assign_value array indices value = Function.update array indices value := by
  funext i
  by_cases h : i = indices
  · subst h
    simp [assign_value]
  · simp [assign_value, Function.update_apply, h]

/-- Embeds tf.nn.dropout applied to the all-ones tensor, the drop_filter
of Dropout.call: entry i is dropped (0) when the uniform noise sample at
i falls below the rate, and is otherwise kept, scaled by 1 / (1 - rate). -/
def dropout_filter {ι : Type} (rate : ℚ) (noise : ι → ℚ) (i : ι) : ℚ :=
  if noise i < rate then 0 else 1 / (1 - rate)

/-- Embeds Dropout.call (layers.py lines 372-376): one drop filter is
drawn per call and multiplies the real lane and the imaginary lane of
every entry identically; the final cast back to the input dtype is the
identity on complex inputs. -/
def dropout_call {ι : Type} (rate : ℚ) (noise : ι → ℚ) (inputs : ι → ℚ × ℚ) : ι → ℚ × ℚ :=
  fun i =>
    (dropout_filter rate noise i * (inputs i).1, dropout_filter rate noise i * (inputs i).2)

/-- C10: a Dropout layer with rate 0 is the identity on every complex
input tensor: with every noise sample nonnegative (uniform samples lie
in [0, 1)), no entry is dropped, the kept scale is 1 / (1 - 0) = 1, and
both the real lane and the imaginary lane of every entry are preserved
exactly. -/
theorem dropout_rate_zero_identity {ι : Type} (noise : ι → ℚ) (inputs : ι → ℚ × ℚ)
    (h : ∀ i, 0 ≤ noise i) : dropout_call 0 noise inputs = inputs := by
  funext i
  have hn : ¬ noise i < 0 := not_lt.mpr (h i)
  simp [dropout_call, dropout_filter, hn]

/-- Witness for C10 on a concrete two-entry complex tensor with concrete
noise samples. -/
theorem dropout_rate_zero_identity_witness :
    dropout_call 0 (fun _ : Fin 2 => (1 : ℚ) / 2) (fun i => ((i : ℚ), 3)) =
      (fun i : Fin 2 => ((i : ℚ), 3)) :=
  dropout_rate_zero_identity (fun _ : Fin 2 => (1 : ℚ) / 2) (fun i => ((i : ℚ), 3))
    (fun _ => by norm_num)

end Cvnn
